import Mathlib

/-!
Shallow embedding of the `arm_vcpu` crate (AArch64 vCPU core of a Type-1
hypervisor): the trap-frame data model, the ESR_EL2 syndrome decoders, the
synchronous/IRQ exit handlers, the PSCI dispatch, vCPU initialisation, and
the per-CPU enable/disable operations, together with theorems checking the
specification's claims against them.

Sources: `src/exception.rs`, `src/vcpu.rs`, `src/pcpu.rs`, `src/lib.rs`.
The modules `context_frame.rs` and `exception_utils.rs` are referenced by
the crate but absent from the provided sources; the definitions for them
below are modelled from the specification (each such definition says so in
its doc comment).

Machine integers are modelled as `Nat`; all the register reads involved are
bit-field extractions, and none of the arithmetic in the modelled paths can
overflow a `u64` (the only addition, `elr + step`, is guarded in the real
code by `elr` being a valid PC).  Functions that can `panic!` return
`Option`, with `none` standing for the halt.
-/

namespace ArmVcpu

/-- Error codes of the external `axerrno` crate (the variants this crate uses). -/
inductive AxError where
  | InvalidInput
  | Unsupported
  | BadState
  deriving DecidableEq, Repr

/-- Access width enum of the external `axvcpu` crate.
Its `TryFrom<usize>` accepts exactly the byte counts 1, 2, 4, 8. -/
inductive AccessWidth where
  | Byte
  | Word
  | Dword
  | Qword
  deriving DecidableEq, Repr

/-- `AccessWidth::try_from` of the `axvcpu` crate: 1/2/4/8 bytes decode,
everything else is an error (modelled as `none`). -/
def AccessWidth.tryFrom : Nat → Option AccessWidth
  | 1 => some .Byte
  | 2 => some .Word
  | 4 => some .Dword
  | 8 => some .Qword
  | _ => none

/-- Byte count of an `AccessWidth`. -/
def AccessWidth.size : AccessWidth → Nat
  | .Byte => 1
  | .Word => 2
  | .Dword => 4
  | .Qword => 8

/-- Exit reasons surfaced to the scheduler (`axvcpu::AxVCpuExitReason`,
restricted to the variants this crate constructs). `args` of `Hypercall`
is the six-element argument list. -/
inductive AxVCpuExitReason where
  | MmioRead (addr : Nat) (width : AccessWidth) (reg : Nat) (regWidth : AccessWidth)
  | MmioWrite (addr : Nat) (width : AccessWidth) (data : Nat)
  | Hypercall (nr : Nat) (args : List Nat)
  | ExternalInterrupt (vector : Nat)
  | SystemDown
  deriving DecidableEq, Repr

/-- Decidable equality for `Except` values (the core library provides
none), so that handler outcomes can be evaluated on concrete inputs. -/
instance {ε α : Type} [DecidableEq ε] [DecidableEq α] :
    DecidableEq (Except ε α) := fun a b =>
  match a, b with
  | .error x, .error y =>
    if h : x = y then .isTrue (congrArg Except.error h)
    else .isFalse fun hh => h (Except.error.inj hh)
  | .ok x, .ok y =>
    if h : x = y then .isTrue (congrArg Except.ok h)
    else .isFalse fun hh => h (Except.ok.inj hh)
  | .error _, .ok _ => .isFalse fun hh => Except.noConfusion hh
  | .ok _, .error _ => .isFalse fun hh => Except.noConfusion hh

/-- Modelled from the spec: `context_frame.rs` (the `Aarch64ContextFrame` /
`TrapFrame` type) is not among the provided sources.  Spec §3: 31
general-purpose words `gpr[0..=30]`, the trapped-level stack pointer `sp`,
the exception link register `elr`, and the saved program status `spsr` —
34 machine words in a stable `repr(C)` layout. -/
structure TrapFrame where
  gpr : List Nat
  sp : Nat
  elr : Nat
  spsr : Nat
  deriving DecidableEq, Repr

/-- Modelled from the spec: `TrapFrame::default()` zero-initialises the frame. -/
def TrapFrame.default : TrapFrame :=
  { gpr := List.replicate 31 0, sp := 0, elr := 0, spsr := 0 }

/-- Modelled from the spec: `exception_pc()` reads the saved `elr`. -/
def TrapFrame.exception_pc (tf : TrapFrame) : Nat := tf.elr

/-- Modelled from the spec: `set_exception_pc(v)` writes the saved `elr`. -/
def TrapFrame.set_exception_pc (tf : TrapFrame) (v : Nat) : TrapFrame :=
  { tf with elr := v }

/-- Modelled from the spec: the `gpr(index)` accessor of the context frame;
reads general-purpose register `index`, with indices beyond the 31 stored
words (the zero register) reading as 0. -/
def TrapFrame.readGpr (tf : TrapFrame) (i : Nat) : Nat := tf.gpr.getD i 0

/-- Modelled from the spec: the `set_gpr(index, val)` mutator of the context
frame. -/
def TrapFrame.writeGpr (tf : TrapFrame) (i : Nat) (v : Nat) : TrapFrame :=
  { tf with gpr := tf.gpr.set i v }

/-- The fault-register state a synchronous trap leaves in the hardware:
`ESR_EL2` (exception syndrome), `HPFAR_EL2` (hypervisor IPA fault address)
and `FAR_EL2` (fault address).  The decoder helpers below are pure
functions of this record, mirroring how the real helpers read the live
registers. -/
structure SyndromeState where
  esr : Nat
  hpfar : Nat
  far : Nat
  deriving DecidableEq, Repr

/-- `ESR_EL2.EC` value for a data abort from a lower exception level
(`ESR_EL2::EC::Value::DataAbortLowerEL`, 0b100100). -/
def EC_DATA_ABORT_LOWER_EL : Nat := 0x24

/-- `ESR_EL2.EC` value for an HVC executed in AArch64 state
(`ESR_EL2::EC::Value::HVC64`, 0b010110). -/
def EC_HVC64 : Nat := 0x16

/-- Modelled from the spec: `exception_class_value()` of the missing
`exception_utils.rs` — the high 6 bits (bits 31:26) of `ESR_EL2`. -/
def exception_class_value (s : SyndromeState) : Nat :=
  s.esr / 2 ^ 26 % 2 ^ 6

/-- Modelled from the spec: `exception_esr()` — the raw `ESR_EL2` value. -/
def exception_esr (s : SyndromeState) : Nat := s.esr

/-- Modelled from the spec: the EC values that denote a stage-2 abort
(instruction abort 0x20/0x21 or data abort 0x24/0x25), the only classes
for which the fault-address registers are defined. -/
def is_stage2_abort (s : SyndromeState) : Bool :=
  let ec := exception_class_value s
  ec = 0x20 || ec = 0x21 || ec = 0x24 || ec = 0x25

/-- Modelled from the spec: `exception_fault_addr()` — reconstructs the
guest intermediate-physical address from `HPFAR_EL2[39:4] << 8` OR'd with
`FAR_EL2[11:0]`; fails with `BadState` when called outside a stage-2
abort. -/
def exception_fault_addr (s : SyndromeState) : Except AxError Nat :=
  if is_stage2_abort s then
    .ok (s.hpfar % 2 ^ 40 / 2 ^ 4 * 2 ^ 12 + s.far % 2 ^ 12)
  else
    .error .BadState

/-- Modelled from the spec: `exception_data_abort_handleable()` — true when
`ISV` (ESR bit 24, syndrome valid) is set. -/
def exception_data_abort_handleable (s : SyndromeState) : Bool :=
  s.esr / 2 ^ 24 % 2 = 1

/-- Modelled from the spec: `exception_data_abort_access_width()` — the
access size in bytes, `1 << SAS` with `SAS` = ESR bits 23:22. -/
def exception_data_abort_access_width (s : SyndromeState) : Nat :=
  2 ^ (s.esr / 2 ^ 22 % 2 ^ 2)

/-- Modelled from the spec: `exception_data_abort_access_is_write()` — the
`WnR` bit (ESR bit 6). -/
def exception_data_abort_access_is_write (s : SyndromeState) : Bool :=
  s.esr / 2 ^ 6 % 2 = 1

/-- Modelled from the spec: `exception_data_abort_access_reg()` — the
transfer register `SRT` (ESR bits 20:16), in `0..=31`. -/
def exception_data_abort_access_reg (s : SyndromeState) : Nat :=
  s.esr / 2 ^ 16 % 2 ^ 5

/-- Modelled from the spec: `exception_data_abort_access_reg_width()` — 8
bytes when `SF` (ESR bit 15) is set, else 4. -/
def exception_data_abort_access_reg_width (s : SyndromeState) : Nat :=
  if s.esr / 2 ^ 15 % 2 = 1 then 8 else 4

/-- Modelled from the spec: `exception_data_abort_is_translate_fault()` —
the `DFSC` field (ESR bits 5:0) encodes a stage-2 translation fault
(DFSC = 0b0001LL). -/
def exception_data_abort_is_translate_fault (s : SyndromeState) : Bool :=
  s.esr % 2 ^ 6 / 2 ^ 2 = 1

/-- Modelled from the spec: `exception_data_abort_is_permission_fault()` —
the `DFSC` field encodes a permission fault (DFSC = 0b0011LL). -/
def exception_data_abort_is_permission_fault (s : SyndromeState) : Bool :=
  s.esr % 2 ^ 6 / 2 ^ 2 = 3

/-- Modelled from the spec: `exception_next_instruction_step()` — 2 when
`IL` (ESR bit 25) is 0 (16-bit instruction), else 4. -/
def exception_next_instruction_step (s : SyndromeState) : Nat :=
  if s.esr / 2 ^ 25 % 2 = 0 then 2 else 4

/-- Trap kinds recorded by the exception vector (`exception.rs`,
`TrapKind`). -/
inductive TrapKind where
  | Synchronous
  | Irq
  | Fiq
  | SError
  deriving DecidableEq, Repr

/-- Outcome of a handler that may `panic!`: `none` is the halt, otherwise
the returned `AxResult<AxVCpuExitReason>` together with the (possibly
mutated) trap frame. -/
abbrev HandlerResult : Type := Option (Except AxError AxVCpuExitReason × TrapFrame)

/-- `handle_exception_irq` (`exception.rs`): unconditionally reports an
external interrupt with the placeholder vector 33 and does not touch the
frame. -/
def handle_exception_irq (ctx : TrapFrame) :
    Except AxError AxVCpuExitReason × TrapFrame :=
  (.ok (.ExternalInterrupt 33), ctx)

/-- `handle_data_abort` (`exception.rs`): decode a lower-EL data abort into
an MMIO exit.  The faulting IPA is read first (propagating its error), the
syndrome fields are extracted, `elr` is advanced by the instruction step,
the widths are converted (failure → `InvalidInput`), then the
non-handleable (`ISV=0`) and non-translate/non-permission cases panic,
a permission fault returns `Unsupported`, and the surviving cases build
`MmioWrite`/`MmioRead`. -/
def handle_data_abort (s : SyndromeState) (context_frame : TrapFrame) :
    HandlerResult :=
  match exception_fault_addr s with
  | .error e => some (.error e, context_frame)
  | .ok addr =>
    let access_width := exception_data_abort_access_width s
    let is_write := exception_data_abort_access_is_write s
    let reg := exception_data_abort_access_reg s
    let reg_width_raw := exception_data_abort_access_reg_width s
    let elr := context_frame.exception_pc
    let frame := context_frame.set_exception_pc
      (elr + exception_next_instruction_step s)
    match AccessWidth.tryFrom access_width with
    | none => some (.error .InvalidInput, frame)
    | some width =>
      match AccessWidth.tryFrom reg_width_raw with
      | none => some (.error .InvalidInput, frame)
      | some reg_width =>
        if !exception_data_abort_handleable s then
          none
        else if !exception_data_abort_is_translate_fault s then
          if exception_data_abort_is_permission_fault s then
            some (.error .Unsupported, frame)
          else
            none
        else if is_write then
          some (.ok (.MmioWrite addr width (frame.readGpr reg)), frame)
        else
          some (.ok (.MmioRead addr width reg reg_width), frame)

/-- `handle_psci_call` (`exception.rs`): `gpr[0]` is a PSCI function id iff
it lies in `0x8400_0000..=0x8400_001F` or `0xC400_0000..=0xC400_001F`;
offset 0x8 from the range start is SYSTEM_OFF (→ `SystemDown`), any other
in-range id is `Unsupported`; out of range returns `none` (not a PSCI
call).  Only `gpr[0]` is read and nothing is written. -/
def handle_psci_call (ctx : TrapFrame) :
    Option (Except AxError AxVCpuExitReason) :=
  let f := ctx.gpr.getD 0 0
  let fnOffset : Option Nat :=
    if 0x84000000 ≤ f ∧ f ≤ 0x8400001F then some (f - 0x84000000)
    else if 0xC4000000 ≤ f ∧ f ≤ 0xC400001F then some (f - 0xC4000000)
    else none
  fnOffset.map fun off =>
    if off = 0x8 then .ok .SystemDown else .error .Unsupported

/-- `handle_exception_sync` (`exception.rs`): dispatch on `ESR_EL2.EC`.
Data aborts from a lower EL go to `handle_data_abort`; HVC64 first tries
the PSCI decode and otherwise returns `Hypercall{nr = gpr[0],
args = gpr[1..=6]}`.  Any other class reaches the `panic!` arm — whose
format arguments evaluate `exception_fault_addr()?` first, so when the
fault address is unavailable the function returns that error instead of
halting. -/
def handle_exception_sync (s : SyndromeState) (ctx : TrapFrame) :
    HandlerResult :=
  if exception_class_value s = EC_DATA_ABORT_LOWER_EL then
    handle_data_abort s ctx
  else if exception_class_value s = EC_HVC64 then
    match handle_psci_call ctx with
    | some result => some (result, ctx)
    | none =>
      some (.ok (.Hypercall (ctx.gpr.getD 0 0)
        [ctx.gpr.getD 1 0, ctx.gpr.getD 2 0, ctx.gpr.getD 3 0,
         ctx.gpr.getD 4 0, ctx.gpr.getD 5 0, ctx.gpr.getD 6 0]), ctx)
  else
    match exception_fault_addr s with
    | .error e => some (.error e, ctx)
    | .ok _ => none

/-- `Aarch64VCpu::vmexit_handler` (`vcpu.rs`), restricted to its exit
dispatch: synchronous traps go to `handle_exception_sync`, IRQs to
`handle_exception_irq`, and any other trap kind panics.  (The guest
system-register store and host `SP_EL0` restore that precede the dispatch
do not touch the trap frame or the returned reason and are omitted.) -/
def vmexit_handler (s : SyndromeState) (ctx : TrapFrame)
    (exit_reason : TrapKind) : HandlerResult :=
  match exit_reason with
  | .Synchronous => handle_exception_sync s ctx
  | .Irq => some (handle_exception_irq ctx)
  | _ => none

/-! Register-field encodings of the external `aarch64_cpu` crate, as fixed
by the ARMv8-A architecture.  `SPSR_EL1`: `M` is bits 3:0 (EL1h = 0b0101),
`F` bit 6, `I` bit 7, `A` bit 8, `D` bit 9.  `VTCR_EL2`: `T0SZ` bits 5:0,
`SL0` bits 7:6, `IRGN0` bits 9:8, `ORGN0` bits 11:10, `SH0` bits 13:12,
`TG0` bits 15:14, `PS` bits 18:16.  `HCR_EL2`: `VM` bit 0, `RW` bit 31. -/

/-- `SPSR_EL1::M::EL1h` — AArch64 EL1 with SP_EL1. -/
def SPSR_EL1_M_EL1h : Nat := 0b0101

/-- `SPSR_EL1::F::Masked` — FIQ mask, bit 6. -/
def SPSR_EL1_F_Masked : Nat := 2 ^ 6

/-- `SPSR_EL1::I::Masked` — IRQ mask, bit 7. -/
def SPSR_EL1_I_Masked : Nat := 2 ^ 7

/-- `SPSR_EL1::A::Masked` — SError mask, bit 8. -/
def SPSR_EL1_A_Masked : Nat := 2 ^ 8

/-- `SPSR_EL1::D::Masked` — debug mask, bit 9. -/
def SPSR_EL1_D_Masked : Nat := 2 ^ 9

/-- `VTCR_EL2::PS::PA_40B_1TB` — 40-bit physical address size, field value
0b010 at bits 18:16. -/
def VTCR_EL2_PS_PA_40B_1TB : Nat := 0b010 * 2 ^ 16

/-- `VTCR_EL2::TG0::Granule4KB` — 4 KiB granule, field value 0b00 at bits
15:14. -/
def VTCR_EL2_TG0_Granule4KB : Nat := 0b00 * 2 ^ 14

/-- `VTCR_EL2::SH0::Inner` — inner shareable, field value 0b11 at bits
13:12. -/
def VTCR_EL2_SH0_Inner : Nat := 0b11 * 2 ^ 12

/-- `VTCR_EL2::ORGN0::NormalWBRAWA` — outer write-back read-allocate
write-allocate, field value 0b01 at bits 11:10. -/
def VTCR_EL2_ORGN0_NormalWBRAWA : Nat := 0b01 * 2 ^ 10

/-- `VTCR_EL2::IRGN0::NormalWBRAWA` — inner write-back read-allocate
write-allocate, field value 0b01 at bits 9:8. -/
def VTCR_EL2_IRGN0_NormalWBRAWA : Nat := 0b01 * 2 ^ 8

/-- `VTCR_EL2::SL0.val(v)` — starting level field at bits 7:6. -/
def VTCR_EL2_SL0_val (v : Nat) : Nat := v % 2 ^ 2 * 2 ^ 6

/-- `VTCR_EL2::T0SZ.val(v)` — region size field at bits 5:0. -/
def VTCR_EL2_T0SZ_val (v : Nat) : Nat := v % 2 ^ 6

/-- `HCR_EL2::VM::Enable` — stage-2 translation enable, bit 0. -/
def HCR_EL2_VM_Enable : Nat := 1

/-- `HCR_EL2::RW::EL1IsAarch64` — EL1 executes in AArch64, bit 31. -/
def HCR_EL2_RW_EL1IsAarch64 : Nat := 2 ^ 31

/-- The guest EL1/EL2 system-register bank (`context_frame.rs`,
`GuestSystemRegisters`) restricted to the slots `vcpu.rs` writes.
Modelled from the spec: the defining module is not among the provided
sources; spec §3 lists the fields, all zero-initialised by `default()`. -/
structure GuestSystemRegisters where
  cntvoff_el2 : Nat := 0
  cntkctl_el1 : Nat := 0
  sctlr_el1 : Nat := 0
  pmcr_el0 : Nat := 0
  vtcr_el2 : Nat := 0
  hcr_el2 : Nat := 0
  vmpidr_el2 : Nat := 0
  vttbr_el2 : Nat := 0
  deriving DecidableEq, Repr

/-- The `Aarch64VCpu` object (`vcpu.rs`): trap frame, host stack-top
mailbox, guest system-register bank, and the vCPU's `MPIDR_EL1` value. -/
structure Aarch64VCpu where
  ctx : TrapFrame
  host_stack_top : Nat
  guest_system_regs : GuestSystemRegisters
  mpidr : Nat
  deriving DecidableEq, Repr

/-- Creation configuration (`vcpu.rs`, `Aarch64VCpuCreateConfig`). -/
structure Aarch64VCpuCreateConfig where
  mpidr_el1 : Nat := 0
  deriving DecidableEq, Repr

/-- `Aarch64VCpu::new` (`vcpu.rs`): default-initialised frame and bank,
zero `host_stack_top`, `mpidr` from the configuration. -/
def Aarch64VCpu.new (config : Aarch64VCpuCreateConfig) : Aarch64VCpu :=
  { ctx := TrapFrame.default
    host_stack_top := 0
    guest_system_regs := {}
    mpidr := config.mpidr_el1 }

/-- `Aarch64VCpu::init_vm_context` (`vcpu.rs`): program the guest bank.
(The write of the hardware register `CNTHCTL_EL2` it also performs is not
part of the bank and is omitted.) -/
def Aarch64VCpu.init_vm_context (v : Aarch64VCpu) : Aarch64VCpu :=
  { v with guest_system_regs :=
    { v.guest_system_regs with
      cntvoff_el2 := 0
      cntkctl_el1 := 0
      sctlr_el1 := 0x30C50830
      pmcr_el0 := 0
      vtcr_el2 := VTCR_EL2_PS_PA_40B_1TB + VTCR_EL2_TG0_Granule4KB +
        VTCR_EL2_SH0_Inner + VTCR_EL2_ORGN0_NormalWBRAWA +
        VTCR_EL2_IRGN0_NormalWBRAWA + VTCR_EL2_SL0_val 0b01 +
        VTCR_EL2_T0SZ_val (64 - 39)
      hcr_el2 := HCR_EL2_VM_Enable + HCR_EL2_RW_EL1IsAarch64
      vmpidr_el2 := 2 ^ 31 ||| v.mpidr } }

/-- `Aarch64VCpu::init_hv` (`vcpu.rs`), the body of `setup()`: program the
frame's `spsr` for EL1h with D/A/I/F masked, then initialise the guest
bank. -/
def Aarch64VCpu.init_hv (v : Aarch64VCpu) : Aarch64VCpu :=
  Aarch64VCpu.init_vm_context
    { v with ctx := { v.ctx with spsr :=
        SPSR_EL1_M_EL1h + SPSR_EL1_I_Masked + SPSR_EL1_F_Masked +
        SPSR_EL1_A_Masked + SPSR_EL1_D_Masked } }

/-- `Aarch64VCpu::setup` (`vcpu.rs`): just `init_hv`. -/
def Aarch64VCpu.setup (v : Aarch64VCpu) : Aarch64VCpu := v.init_hv

/-- The per-CPU hardware state `pcpu.rs` manipulates: the live `VBAR_EL2`
and `HCR_EL2` registers and the per-CPU scratch word
`ORI_EXCEPTION_VECTOR_BASE`. -/
structure PerCpuHwState where
  vbar_el2 : Nat
  hcr_el2 : Nat
  ori_exception_vector_base : Nat
  deriving DecidableEq, Repr

/-- `Aarch64PerCpu::hardware_enable` (`pcpu.rs`): record the current
`VBAR_EL2` in the per-CPU scratch, install the crate's vector base
(`exception_vector_base_vcpu`, an externally linked address passed here as
a parameter), and set `HCR_EL2` to `VM::Enable`. -/
def hardware_enable (exception_vector_base_vcpu : Nat)
    (st : PerCpuHwState) : PerCpuHwState :=
  { st with
    ori_exception_vector_base := st.vbar_el2
    vbar_el2 := exception_vector_base_vcpu
    hcr_el2 := HCR_EL2_VM_Enable }

/-- `Aarch64PerCpu::hardware_disable` (`pcpu.rs`): restore `VBAR_EL2` from
the per-CPU scratch and set `HCR_EL2` to `VM::Disable` (0). -/
def hardware_disable (st : PerCpuHwState) : PerCpuHwState :=
  { st with
    vbar_el2 := st.ori_exception_vector_base
    hcr_el2 := 0 }

/-- `Aarch64PerCpu::is_enabled` (`pcpu.rs`): bit 0 of `HCR_EL2`. -/
def is_enabled (st : PerCpuHwState) : Bool := st.hcr_el2 % 2 ≠ 0

/-! `repr(C)` layout arithmetic for claim C8.  All fields involved are
8-byte words, so offsets are word counts times 8. -/

/-- Number of 8-byte words in the `TrapFrame`: 31 GPRs, `sp`, `elr`,
`spsr`.  Modelled from the spec (§3): the defining `context_frame.rs` is
not among the provided sources. -/
def trapFrameWords : Nat := 31 + 1 + 1 + 1

/-- Byte size of the `repr(C)` `TrapFrame` (all fields `u64`, no padding). -/
def trapFrameSizeBytes : Nat := trapFrameWords * 8

/-- Byte offset of `host_stack_top` in the `repr(C)` `Aarch64VCpu`
(`vcpu.rs`): the struct starts with `ctx: TrapFrame` and `host_stack_top`
follows it directly. -/
def hostStackTopOffset : Nat := trapFrameSizeBytes

/-- The stack-pointer adjustment hard-coded in `vmexit_trampoline`
(`exception.rs`): `add sp, sp, 34 * 8`. -/
def vmexitTrampolineSpAdjust : Nat := 34 * 8

/-- Whether a handler outcome is a generic hypercall exit (used to state
that PSCI-range HVCs never surface as `Hypercall`). -/
def resultIsHypercall : HandlerResult → Bool
  | some (.ok (.Hypercall _ _), _) => true
  | _ => false

/-! Helper lemmas shared by several proofs. -/

/-- The decoded access width `1 << SAS` always lies in {1,2,4,8}, so the
`AccessWidth` conversion succeeds and preserves the byte count. -/
lemma tryFrom_access_width (s : SyndromeState) :
    ∃ w, AccessWidth.tryFrom (exception_data_abort_access_width s) = some w ∧
      w.size = exception_data_abort_access_width s := by
  have h4 : s.esr / 2 ^ 22 % 2 ^ 2 = 0 ∨ s.esr / 2 ^ 22 % 2 ^ 2 = 1 ∨
      s.esr / 2 ^ 22 % 2 ^ 2 = 2 ∨ s.esr / 2 ^ 22 % 2 ^ 2 = 3 := by omega
  unfold exception_data_abort_access_width
  rcases h4 with h | h | h | h <;> rw [h] <;> exact ⟨_, rfl, rfl⟩

/-- The decoded register width is 4 or 8, so the `AccessWidth` conversion
succeeds and preserves the byte count. -/
lemma tryFrom_reg_width (s : SyndromeState) :
    ∃ w, AccessWidth.tryFrom (exception_data_abort_access_reg_width s) = some w ∧
      w.size = exception_data_abort_access_reg_width s := by
  unfold exception_data_abort_access_reg_width
  by_cases h : s.esr / 2 ^ 15 % 2 = 1
  · rw [if_pos h]; exact ⟨_, rfl, rfl⟩
  · rw [if_neg h]; exact ⟨_, rfl, rfl⟩

/-- A data abort from a lower EL is a stage-2 abort, so the fault address
is available. -/
lemma fault_addr_of_data_abort (s : SyndromeState)
    (hec : exception_class_value s = EC_DATA_ABORT_LOWER_EL) :
    exception_fault_addr s =
      .ok (s.hpfar % 2 ^ 40 / 2 ^ 4 * 2 ^ 12 + s.far % 2 ^ 12) := by
  unfold exception_fault_addr is_stage2_abort
  rw [hec]
  rfl

/-- Closed form of `handle_psci_call`: an if-cascade on the two PSCI
function-identifier ranges. -/
lemma psci_spec (ctx : TrapFrame) :
    handle_psci_call ctx =
      if 0x84000000 ≤ ctx.gpr.getD 0 0 ∧ ctx.gpr.getD 0 0 ≤ 0x8400001F then
        some (if ctx.gpr.getD 0 0 - 0x84000000 = 8 then .ok .SystemDown
          else .error .Unsupported)
      else if 0xC4000000 ≤ ctx.gpr.getD 0 0 ∧ ctx.gpr.getD 0 0 ≤ 0xC400001F then
        some (if ctx.gpr.getD 0 0 - 0xC4000000 = 8 then .ok .SystemDown
          else .error .Unsupported)
      else none := by
  unfold handle_psci_call
  dsimp only
  by_cases h1 : 0x84000000 ≤ ctx.gpr.getD 0 0 ∧ ctx.gpr.getD 0 0 ≤ 0x8400001F
  · rw [if_pos h1, if_pos h1]
    rfl
  · rw [if_neg h1, if_neg h1]
    by_cases h2 : 0xC4000000 ≤ ctx.gpr.getD 0 0 ∧ ctx.gpr.getD 0 0 ≤ 0xC400001F
    · rw [if_pos h2, if_pos h2]
      rfl
    · rw [if_neg h2, if_neg h2]
      rfl

/-- On an HVC64 trap, when the PSCI decode fires its result is returned
unchanged, paired with the untouched frame. -/
lemma sync_hvc_psci (s : SyndromeState) (ctx : TrapFrame)
    (hec : exception_class_value s = EC_HVC64)
    (r : Except AxError AxVCpuExitReason)
    (hr : handle_psci_call ctx = some r) :
    handle_exception_sync s ctx = some (r, ctx) := by
  unfold handle_exception_sync
  rw [hec, hr]
  norm_num [EC_HVC64, EC_DATA_ABORT_LOWER_EL]

/-- On an HVC64 trap, when the PSCI decode declines, the generic
hypercall is returned, with the untouched frame. -/
lemma sync_hvc_nonpsci (s : SyndromeState) (ctx : TrapFrame)
    (hec : exception_class_value s = EC_HVC64)
    (hr : handle_psci_call ctx = none) :
    handle_exception_sync s ctx = some (.ok (.Hypercall (ctx.gpr.getD 0 0)
      [ctx.gpr.getD 1 0, ctx.gpr.getD 2 0, ctx.gpr.getD 3 0,
       ctx.gpr.getD 4 0, ctx.gpr.getD 5 0, ctx.gpr.getD 6 0]), ctx) := by
  unfold handle_exception_sync
  rw [hec, hr]
  norm_num [EC_HVC64, EC_DATA_ABORT_LOWER_EL]

/-- C9: For every trap frame, the IRQ exit handler returns
`Ok(ExternalInterrupt{vector})` with the constant vector 33, regardless
of the frame's contents (and leaves the frame unchanged). -/
theorem claim_C9 (ctx : TrapFrame) :
    handle_exception_irq ctx = (.ok (.ExternalInterrupt 33), ctx) := rfl

/-- C7: For every starting value of `VBAR_EL2`, `hardware_enable` followed
by `hardware_disable` on the same per-CPU state leaves `VBAR_EL2` equal to
the value observed before `hardware_enable`. -/
theorem claim_C7 (exception_vector_base_vcpu : Nat) (st : PerCpuHwState) :
    (hardware_disable (hardware_enable exception_vector_base_vcpu st)).vbar_el2
      = st.vbar_el2 := rfl

/-- C8 (layout arithmetic): `host_stack_top` follows the 34-word
`repr(C)` trap frame, so it sits at byte offset 34·8 = 272 from the
`Aarch64VCpu` base — exactly the adjustment the exit trampoline adds to
the stack pointer.  (The build-time assertion of this offset that the
spec mandates does not exist in the source.)  -/
theorem claim_C8 :
    hostStackTopOffset = 34 * 8 ∧ hostStackTopOffset = 272 ∧
    vmexitTrampolineSpAdjust = hostStackTopOffset := by decide

/-- C5: After `setup()` on a freshly created vCPU, `spsr` is 0x3C5 — EL1h
(M = 0b0101) with D, A, I, F (bits 9:6) all masked — and the guest bank
holds `SCTLR_EL1 = 0x30C5_0830`; `VTCR_EL2 = 0x23559`, which decodes to
T0SZ = 25, SL0 = 1 (start level 1), IRGN0 = ORGN0 = 1 (write-back
read-allocate), SH0 = 3 (inner shareable), TG0 = 0 (4 KiB granule),
PS = 2 (40-bit PA); `HCR_EL2 = 2^31 + 1` (exactly VM | RW);
`CNTVOFF_EL2 = 0`; and `VMPIDR_EL2 = 2^31 ||| mpidr`. -/
theorem claim_C5 (mpidr : Nat) :
    ((Aarch64VCpu.new ⟨mpidr⟩).setup).ctx.spsr = 0x3C5 ∧
    ((Aarch64VCpu.new ⟨mpidr⟩).setup).ctx.spsr % 2 ^ 4 = 0b0101 ∧
    ((Aarch64VCpu.new ⟨mpidr⟩).setup).ctx.spsr / 2 ^ 6 % 2 ^ 4 = 0b1111 ∧
    ((Aarch64VCpu.new ⟨mpidr⟩).setup).guest_system_regs.sctlr_el1 = 0x30C50830 ∧
    ((Aarch64VCpu.new ⟨mpidr⟩).setup).guest_system_regs.vtcr_el2 = 0x23559 ∧
    ((Aarch64VCpu.new ⟨mpidr⟩).setup).guest_system_regs.vtcr_el2 % 2 ^ 6 = 25 ∧
    ((Aarch64VCpu.new ⟨mpidr⟩).setup).guest_system_regs.vtcr_el2 / 2 ^ 6 % 2 ^ 2 = 1 ∧
    ((Aarch64VCpu.new ⟨mpidr⟩).setup).guest_system_regs.vtcr_el2 / 2 ^ 8 % 2 ^ 2 = 1 ∧
    ((Aarch64VCpu.new ⟨mpidr⟩).setup).guest_system_regs.vtcr_el2 / 2 ^ 10 % 2 ^ 2 = 1 ∧
    ((Aarch64VCpu.new ⟨mpidr⟩).setup).guest_system_regs.vtcr_el2 / 2 ^ 12 % 2 ^ 2 = 3 ∧
    ((Aarch64VCpu.new ⟨mpidr⟩).setup).guest_system_regs.vtcr_el2 / 2 ^ 14 % 2 ^ 2 = 0 ∧
    ((Aarch64VCpu.new ⟨mpidr⟩).setup).guest_system_regs.vtcr_el2 / 2 ^ 16 % 2 ^ 3 = 2 ∧
    ((Aarch64VCpu.new ⟨mpidr⟩).setup).guest_system_regs.hcr_el2 = 2 ^ 31 + 1 ∧
    ((Aarch64VCpu.new ⟨mpidr⟩).setup).guest_system_regs.cntvoff_el2 = 0 ∧
    ((Aarch64VCpu.new ⟨mpidr⟩).setup).guest_system_regs.vmpidr_el2 = 2 ^ 31 ||| mpidr := by
  exact ⟨rfl, (by decide : (0x3C5 : Nat) % 2 ^ 4 = 0b0101),
    (by decide : (0x3C5 : Nat) / 2 ^ 6 % 2 ^ 4 = 0b1111), rfl, rfl,
    (by decide : (0x23559 : Nat) % 2 ^ 6 = 25),
    (by decide : (0x23559 : Nat) / 2 ^ 6 % 2 ^ 2 = 1),
    (by decide : (0x23559 : Nat) / 2 ^ 8 % 2 ^ 2 = 1),
    (by decide : (0x23559 : Nat) / 2 ^ 10 % 2 ^ 2 = 1),
    (by decide : (0x23559 : Nat) / 2 ^ 12 % 2 ^ 2 = 3),
    (by decide : (0x23559 : Nat) / 2 ^ 14 % 2 ^ 2 = 0),
    (by decide : (0x23559 : Nat) / 2 ^ 16 % 2 ^ 3 = 2), rfl, rfl, rfl⟩

/-- C1 (amended): for every data abort from a lower EL with ISV = 1 whose
DFSC reports a stage-2 translate fault, the decoder returns `MmioWrite`
with `addr = fault_ipa()`, the decoded width, and `data = gpr[reg]` when
the access is a write, and otherwise `MmioRead{addr, width, reg,
reg_width}`; the width is one of 1, 2, 4, 8 bytes, `reg ≤ 31`, and the
register width is 4 or 8 bytes.  (As stated in the original claim — for
every ISV = 1 abort — the property fails: a permission fault with
ISV = 1 yields `Err(Unsupported)`, see the counterexample.) -/
theorem claim_C1 (s : SyndromeState) (tf : TrapFrame)
    (hec : exception_class_value s = EC_DATA_ABORT_LOWER_EL)
    (hisv : exception_data_abort_handleable s = true)
    (htr : exception_data_abort_is_translate_fault s = true) :
    ∃ width regWidth addr,
      AccessWidth.tryFrom (exception_data_abort_access_width s) = some width ∧
      AccessWidth.tryFrom (exception_data_abort_access_reg_width s) = some regWidth ∧
      exception_fault_addr s = .ok addr ∧
      width.size = exception_data_abort_access_width s ∧
      (width.size = 1 ∨ width.size = 2 ∨ width.size = 4 ∨ width.size = 8) ∧
      regWidth.size = exception_data_abort_access_reg_width s ∧
      (regWidth.size = 4 ∨ regWidth.size = 8) ∧
      exception_data_abort_access_reg s ≤ 31 ∧
      (exception_data_abort_access_is_write s = true →
        handle_data_abort s tf = some (.ok (.MmioWrite addr width
          (tf.readGpr (exception_data_abort_access_reg s))),
          tf.set_exception_pc (tf.elr + exception_next_instruction_step s))) ∧
      (exception_data_abort_access_is_write s = false →
        handle_data_abort s tf = some (.ok (.MmioRead addr width
          (exception_data_abort_access_reg s) regWidth),
          tf.set_exception_pc (tf.elr + exception_next_instruction_step s))) := by
  obtain ⟨w, hw, hws⟩ := tryFrom_access_width s
  obtain ⟨v, hv, hvs⟩ := tryFrom_reg_width s
  refine ⟨w, v, _, hw, hv, fault_addr_of_data_abort s hec, hws, ?_, hvs, ?_, ?_, ?_, ?_⟩
  · cases w <;> simp [AccessWidth.size]
  · rw [hvs]
    unfold exception_data_abort_access_reg_width
    split <;> simp
  · unfold exception_data_abort_access_reg
    have : s.esr / 2 ^ 16 % 2 ^ 5 < 2 ^ 5 := Nat.mod_lt _ (by norm_num)
    omega
  · intro hwr
    unfold handle_data_abort
    rw [fault_addr_of_data_abort s hec]
    simp only [hw, hv, hisv, htr, hwr, Bool.not_true, Bool.false_eq_true,
      if_false]
    rfl
  · intro hwr
    unfold handle_data_abort
    rw [fault_addr_of_data_abort s hec]
    simp only [hw, hv, hisv, htr, hwr, Bool.not_true, Bool.false_eq_true,
      if_false]
    rfl

/-- C1 counterexample: a lower-EL data abort with ISV = 1 whose DFSC is a
permission fault (0x0C) makes the decoder return `Err(Unsupported)` — not
`MmioRead` or `MmioWrite` as the claim states for every ISV = 1 abort. -/
theorem claim_C1_counterexample :
    exception_class_value ⟨0x24 * 2 ^ 26 + 2 ^ 25 + 2 ^ 24 + 2 * 2 ^ 22 + 0x0C, 0x10, 0xABC⟩
        = EC_DATA_ABORT_LOWER_EL ∧
    exception_data_abort_handleable
        ⟨0x24 * 2 ^ 26 + 2 ^ 25 + 2 ^ 24 + 2 * 2 ^ 22 + 0x0C, 0x10, 0xABC⟩ = true ∧
    handle_data_abort
        ⟨0x24 * 2 ^ 26 + 2 ^ 25 + 2 ^ 24 + 2 * 2 ^ 22 + 0x0C, 0x10, 0xABC⟩
        ⟨[7, 8, 9], 0, 0x1000, 0⟩ =
      some (.error .Unsupported, ⟨[7, 8, 9], 0, 0x1004, 0⟩) :=
  ⟨by decide, by decide, by decide⟩

/-- C1 witness: a concrete 32-bit MMIO write (SAS = 2, WnR = 1, SRT = 5,
translate fault) satisfies the hypotheses of `claim_C1`. -/
theorem claim_C1_witness :
    exception_class_value
        ⟨0x24 * 2 ^ 26 + 2 ^ 25 + 2 ^ 24 + 2 * 2 ^ 22 + 5 * 2 ^ 16 + 2 ^ 6 + 4, 0x10, 0xABC⟩
        = EC_DATA_ABORT_LOWER_EL ∧
    exception_data_abort_handleable
        ⟨0x24 * 2 ^ 26 + 2 ^ 25 + 2 ^ 24 + 2 * 2 ^ 22 + 5 * 2 ^ 16 + 2 ^ 6 + 4, 0x10, 0xABC⟩
        = true ∧
    exception_data_abort_is_translate_fault
        ⟨0x24 * 2 ^ 26 + 2 ^ 25 + 2 ^ 24 + 2 * 2 ^ 22 + 5 * 2 ^ 16 + 2 ^ 6 + 4, 0x10, 0xABC⟩
        = true ∧
    (∃ width regWidth addr,
      AccessWidth.tryFrom (exception_data_abort_access_width
        ⟨0x24 * 2 ^ 26 + 2 ^ 25 + 2 ^ 24 + 2 * 2 ^ 22 + 5 * 2 ^ 16 + 2 ^ 6 + 4, 0x10, 0xABC⟩)
        = some width ∧
      AccessWidth.tryFrom (exception_data_abort_access_reg_width
        ⟨0x24 * 2 ^ 26 + 2 ^ 25 + 2 ^ 24 + 2 * 2 ^ 22 + 5 * 2 ^ 16 + 2 ^ 6 + 4, 0x10, 0xABC⟩)
        = some regWidth ∧
      exception_fault_addr
        ⟨0x24 * 2 ^ 26 + 2 ^ 25 + 2 ^ 24 + 2 * 2 ^ 22 + 5 * 2 ^ 16 + 2 ^ 6 + 4, 0x10, 0xABC⟩
        = .ok addr ∧
      width.size = exception_data_abort_access_width
        ⟨0x24 * 2 ^ 26 + 2 ^ 25 + 2 ^ 24 + 2 * 2 ^ 22 + 5 * 2 ^ 16 + 2 ^ 6 + 4, 0x10, 0xABC⟩ ∧
      (width.size = 1 ∨ width.size = 2 ∨ width.size = 4 ∨ width.size = 8) ∧
      regWidth.size = exception_data_abort_access_reg_width
        ⟨0x24 * 2 ^ 26 + 2 ^ 25 + 2 ^ 24 + 2 * 2 ^ 22 + 5 * 2 ^ 16 + 2 ^ 6 + 4, 0x10, 0xABC⟩ ∧
      (regWidth.size = 4 ∨ regWidth.size = 8) ∧
      exception_data_abort_access_reg
        ⟨0x24 * 2 ^ 26 + 2 ^ 25 + 2 ^ 24 + 2 * 2 ^ 22 + 5 * 2 ^ 16 + 2 ^ 6 + 4, 0x10, 0xABC⟩
        ≤ 31 ∧
      (exception_data_abort_access_is_write
        ⟨0x24 * 2 ^ 26 + 2 ^ 25 + 2 ^ 24 + 2 * 2 ^ 22 + 5 * 2 ^ 16 + 2 ^ 6 + 4, 0x10, 0xABC⟩
        = true →
        handle_data_abort
          ⟨0x24 * 2 ^ 26 + 2 ^ 25 + 2 ^ 24 + 2 * 2 ^ 22 + 5 * 2 ^ 16 + 2 ^ 6 + 4, 0x10, 0xABC⟩
          ⟨[20, 21, 22, 23, 24, 25, 26], 1, 0x1000, 2⟩ =
          some (.ok (.MmioWrite addr width
            (TrapFrame.readGpr ⟨[20, 21, 22, 23, 24, 25, 26], 1, 0x1000, 2⟩
              (exception_data_abort_access_reg
                ⟨0x24 * 2 ^ 26 + 2 ^ 25 + 2 ^ 24 + 2 * 2 ^ 22 + 5 * 2 ^ 16 + 2 ^ 6 + 4, 0x10, 0xABC⟩))),
            TrapFrame.set_exception_pc ⟨[20, 21, 22, 23, 24, 25, 26], 1, 0x1000, 2⟩
              (0x1000 + exception_next_instruction_step
                ⟨0x24 * 2 ^ 26 + 2 ^ 25 + 2 ^ 24 + 2 * 2 ^ 22 + 5 * 2 ^ 16 + 2 ^ 6 + 4, 0x10, 0xABC⟩))) ∧
      (exception_data_abort_access_is_write
        ⟨0x24 * 2 ^ 26 + 2 ^ 25 + 2 ^ 24 + 2 * 2 ^ 22 + 5 * 2 ^ 16 + 2 ^ 6 + 4, 0x10, 0xABC⟩
        = false →
        handle_data_abort
          ⟨0x24 * 2 ^ 26 + 2 ^ 25 + 2 ^ 24 + 2 * 2 ^ 22 + 5 * 2 ^ 16 + 2 ^ 6 + 4, 0x10, 0xABC⟩
          ⟨[20, 21, 22, 23, 24, 25, 26], 1, 0x1000, 2⟩ =
          some (.ok (.MmioRead addr width
            (exception_data_abort_access_reg
              ⟨0x24 * 2 ^ 26 + 2 ^ 25 + 2 ^ 24 + 2 * 2 ^ 22 + 5 * 2 ^ 16 + 2 ^ 6 + 4, 0x10, 0xABC⟩)
            regWidth),
            TrapFrame.set_exception_pc ⟨[20, 21, 22, 23, 24, 25, 26], 1, 0x1000, 2⟩
              (0x1000 + exception_next_instruction_step
                ⟨0x24 * 2 ^ 26 + 2 ^ 25 + 2 ^ 24 + 2 * 2 ^ 22 + 5 * 2 ^ 16 + 2 ^ 6 + 4, 0x10, 0xABC⟩)))) :=
  ⟨by decide, by decide, by decide,
    claim_C1 _ ⟨[20, 21, 22, 23, 24, 25, 26], 1, 0x1000, 2⟩
      (by decide) (by decide) (by decide)⟩

/-- C2: whenever the data-abort decoder returns (successfully or with
`Err(InvalidInput)`/`Err(Unsupported)`), the frame's `elr` equals the
pre-exception `elr` plus `next_instruction_step()` — it has been advanced
exactly once. -/
theorem claim_C2 (s : SyndromeState) (tf : TrapFrame)
    (res : Except AxError AxVCpuExitReason) (tf2 : TrapFrame)
    (hec : exception_class_value s = EC_DATA_ABORT_LOWER_EL)
    (h : handle_data_abort s tf = some (res, tf2)) :
    tf2.elr = tf.elr + exception_next_instruction_step s := by
  unfold handle_data_abort at h
  rw [fault_addr_of_data_abort s hec] at h
  simp only [] at h
  repeat' split at h
  all_goals cases h
  all_goals rfl

/-- C2 witness: the concrete MMIO write of `claim_C1_witness` advances
`elr` from 0x1000 to 0x1004 (IL = 1, step 4). -/
theorem claim_C2_witness :
    handle_data_abort
        ⟨0x24 * 2 ^ 26 + 2 ^ 25 + 2 ^ 24 + 2 * 2 ^ 22 + 5 * 2 ^ 16 + 2 ^ 6 + 4, 0x10, 0xABC⟩
        ⟨[20, 21, 22, 23, 24, 25, 26], 1, 0x1000, 2⟩ =
      some (.ok (.MmioWrite 0x1ABC .Dword 25), ⟨[20, 21, 22, 23, 24, 25, 26], 1, 0x1004, 2⟩) ∧
    TrapFrame.elr ⟨[20, 21, 22, 23, 24, 25, 26], 1, 0x1004, 2⟩ =
      TrapFrame.elr ⟨[20, 21, 22, 23, 24, 25, 26], 1, 0x1000, 2⟩ +
        exception_next_instruction_step
          ⟨0x24 * 2 ^ 26 + 2 ^ 25 + 2 ^ 24 + 2 * 2 ^ 22 + 5 * 2 ^ 16 + 2 ^ 6 + 4, 0x10, 0xABC⟩ :=
  ⟨by decide,
    claim_C2 ⟨0x24 * 2 ^ 26 + 2 ^ 25 + 2 ^ 24 + 2 * 2 ^ 22 + 5 * 2 ^ 16 + 2 ^ 6 + 4, 0x10, 0xABC⟩
      ⟨[20, 21, 22, 23, 24, 25, 26], 1, 0x1000, 2⟩
      (.ok (.MmioWrite 0x1ABC .Dword 25))
      ⟨[20, 21, 22, 23, 24, 25, 26], 1, 0x1004, 2⟩ (by decide) (by decide)⟩

/-- C3: on an HVC64 trap, `gpr[0]` is treated as a PSCI call iff it lies
in `0x8400_0000..=0x8400_001F` or `0xC400_0000..=0xC400_001F`; offset 0x8
from the range start yields `Ok(SystemDown)`, every other in-range value
yields `Err(Unsupported)`, and an in-range `gpr[0]` never produces a
`Hypercall`. -/
theorem claim_C3 (s : SyndromeState) (ctx : TrapFrame)
    (hec : exception_class_value s = EC_HVC64) :
    ((handle_psci_call ctx).isSome ↔
      (0x84000000 ≤ ctx.gpr.getD 0 0 ∧ ctx.gpr.getD 0 0 ≤ 0x8400001F) ∨
      (0xC4000000 ≤ ctx.gpr.getD 0 0 ∧ ctx.gpr.getD 0 0 ≤ 0xC400001F)) ∧
    ((ctx.gpr.getD 0 0 = 0x84000000 + 0x8 ∨ ctx.gpr.getD 0 0 = 0xC4000000 + 0x8) →
      handle_exception_sync s ctx = some (.ok .SystemDown, ctx)) ∧
    ((((0x84000000 ≤ ctx.gpr.getD 0 0 ∧ ctx.gpr.getD 0 0 ≤ 0x8400001F) ∧
        ctx.gpr.getD 0 0 ≠ 0x84000000 + 0x8) ∨
      ((0xC4000000 ≤ ctx.gpr.getD 0 0 ∧ ctx.gpr.getD 0 0 ≤ 0xC400001F) ∧
        ctx.gpr.getD 0 0 ≠ 0xC4000000 + 0x8)) →
      handle_exception_sync s ctx = some (.error .Unsupported, ctx)) ∧
    (((0x84000000 ≤ ctx.gpr.getD 0 0 ∧ ctx.gpr.getD 0 0 ≤ 0x8400001F) ∨
      (0xC4000000 ≤ ctx.gpr.getD 0 0 ∧ ctx.gpr.getD 0 0 ≤ 0xC400001F)) →
      resultIsHypercall (handle_exception_sync s ctx) = false) := by
  refine ⟨?_, ?_, ?_, ?_⟩
  · rw [psci_spec]
    by_cases h1 : 0x84000000 ≤ ctx.gpr.getD 0 0 ∧ ctx.gpr.getD 0 0 ≤ 0x8400001F
    · rw [if_pos h1]
      simp only [Option.isSome_some, true_iff]
      exact Or.inl h1
    · rw [if_neg h1]
      by_cases h2 : 0xC4000000 ≤ ctx.gpr.getD 0 0 ∧ ctx.gpr.getD 0 0 ≤ 0xC400001F
      · rw [if_pos h2]
        simp only [Option.isSome_some, true_iff]
        exact Or.inr h2
      · rw [if_neg h2]
        simp only [Option.isSome_none, false_iff]
        tauto
  · intro hf
    refine sync_hvc_psci s ctx hec _ ?_
    rw [psci_spec]
    rcases hf with hf | hf
    · rw [if_pos (by omega), if_pos (by omega)]
    · rw [if_neg (by omega), if_pos (by omega), if_pos (by omega)]
  · intro hf
    refine sync_hvc_psci s ctx hec _ ?_
    rw [psci_spec]
    rcases hf with ⟨⟨ha, hb⟩, hne⟩ | ⟨⟨ha, hb⟩, hne⟩
    · rw [if_pos (by omega), if_neg (by omega)]
    · rw [if_neg (by omega), if_pos (by omega), if_neg (by omega)]
  · intro hf
    rcases hf with hf | hf
    · by_cases hc : ctx.gpr.getD 0 0 - 0x84000000 = 8
      · have hr : handle_psci_call ctx = some (.ok .SystemDown) := by
          rw [psci_spec, if_pos hf, if_pos hc]
        rw [sync_hvc_psci s ctx hec _ hr]
        rfl
      · have hr : handle_psci_call ctx = some (.error .Unsupported) := by
          rw [psci_spec, if_pos hf, if_neg hc]
        rw [sync_hvc_psci s ctx hec _ hr]
        rfl
    · have h32 : ¬(0x84000000 ≤ ctx.gpr.getD 0 0 ∧ ctx.gpr.getD 0 0 ≤ 0x8400001F) := by
        omega
      by_cases hc : ctx.gpr.getD 0 0 - 0xC4000000 = 8
      · have hr : handle_psci_call ctx = some (.ok .SystemDown) := by
          rw [psci_spec, if_neg h32, if_pos hf, if_pos hc]
        rw [sync_hvc_psci s ctx hec _ hr]
        rfl
      · have hr : handle_psci_call ctx = some (.error .Unsupported) := by
          rw [psci_spec, if_neg h32, if_pos hf, if_neg hc]
        rw [sync_hvc_psci s ctx hec _ hr]
        rfl

/-- C3 witness: an HVC64 trap with `gpr[0] = 0x8400_0008` (PSCI
SYSTEM_OFF, 32-bit convention) instantiates `claim_C3`. -/
theorem claim_C3_witness :
    exception_class_value ⟨0x16 * 2 ^ 26, 0, 0⟩ = EC_HVC64 ∧
    (((handle_psci_call ⟨[0x84000008, 1, 2], 3, 4, 5⟩).isSome ↔
      (0x84000000 ≤ List.getD [0x84000008, 1, 2] 0 0 ∧
        List.getD [0x84000008, 1, 2] 0 0 ≤ 0x8400001F) ∨
      (0xC4000000 ≤ List.getD [0x84000008, 1, 2] 0 0 ∧
        List.getD [0x84000008, 1, 2] 0 0 ≤ 0xC400001F)) ∧
    ((List.getD [0x84000008, 1, 2] 0 0 = 0x84000000 + 0x8 ∨
      List.getD [0x84000008, 1, 2] 0 0 = 0xC4000000 + 0x8) →
      handle_exception_sync ⟨0x16 * 2 ^ 26, 0, 0⟩ ⟨[0x84000008, 1, 2], 3, 4, 5⟩ =
        some (.ok .SystemDown, ⟨[0x84000008, 1, 2], 3, 4, 5⟩)) ∧
    ((((0x84000000 ≤ List.getD [0x84000008, 1, 2] 0 0 ∧
        List.getD [0x84000008, 1, 2] 0 0 ≤ 0x8400001F) ∧
        List.getD [0x84000008, 1, 2] 0 0 ≠ 0x84000000 + 0x8) ∨
      ((0xC4000000 ≤ List.getD [0x84000008, 1, 2] 0 0 ∧
        List.getD [0x84000008, 1, 2] 0 0 ≤ 0xC400001F) ∧
        List.getD [0x84000008, 1, 2] 0 0 ≠ 0xC4000000 + 0x8)) →
      handle_exception_sync ⟨0x16 * 2 ^ 26, 0, 0⟩ ⟨[0x84000008, 1, 2], 3, 4, 5⟩ =
        some (.error .Unsupported, ⟨[0x84000008, 1, 2], 3, 4, 5⟩)) ∧
    (((0x84000000 ≤ List.getD [0x84000008, 1, 2] 0 0 ∧
        List.getD [0x84000008, 1, 2] 0 0 ≤ 0x8400001F) ∨
      (0xC4000000 ≤ List.getD [0x84000008, 1, 2] 0 0 ∧
        List.getD [0x84000008, 1, 2] 0 0 ≤ 0xC400001F)) →
      resultIsHypercall
        (handle_exception_sync ⟨0x16 * 2 ^ 26, 0, 0⟩ ⟨[0x84000008, 1, 2], 3, 4, 5⟩)
        = false)) :=
  ⟨by decide, claim_C3 ⟨0x16 * 2 ^ 26, 0, 0⟩ ⟨[0x84000008, 1, 2], 3, 4, 5⟩ (by decide)⟩

/-- C4: on an HVC64 trap whose `gpr[0]` lies outside both PSCI ranges,
the synchronous handler returns `Ok(Hypercall{nr = gpr[0],
args = gpr[1..=6]})` with the frame untouched. -/
theorem claim_C4 (s : SyndromeState) (ctx : TrapFrame)
    (hec : exception_class_value s = EC_HVC64)
    (hout : ¬((0x84000000 ≤ ctx.gpr.getD 0 0 ∧ ctx.gpr.getD 0 0 ≤ 0x8400001F) ∨
      (0xC4000000 ≤ ctx.gpr.getD 0 0 ∧ ctx.gpr.getD 0 0 ≤ 0xC400001F))) :
    handle_exception_sync s ctx = some (.ok (.Hypercall (ctx.gpr.getD 0 0)
      [ctx.gpr.getD 1 0, ctx.gpr.getD 2 0, ctx.gpr.getD 3 0,
       ctx.gpr.getD 4 0, ctx.gpr.getD 5 0, ctx.gpr.getD 6 0]), ctx) := by
  refine sync_hvc_nonpsci s ctx hec ?_
  rw [psci_spec]
  rw [if_neg (by tauto), if_neg (by tauto)]

/-- C4 witness: an HVC64 trap with `gpr[0] = 42` (outside both PSCI
ranges) yields `Hypercall{nr = 42, args = [1,2,3,4,5,6]}`. -/
theorem claim_C4_witness :
    exception_class_value ⟨0x16 * 2 ^ 26, 0, 0⟩ = EC_HVC64 ∧
    ¬((0x84000000 ≤ List.getD [42, 1, 2, 3, 4, 5, 6] 0 0 ∧
       List.getD [42, 1, 2, 3, 4, 5, 6] 0 0 ≤ 0x8400001F) ∨
      (0xC4000000 ≤ List.getD [42, 1, 2, 3, 4, 5, 6] 0 0 ∧
       List.getD [42, 1, 2, 3, 4, 5, 6] 0 0 ≤ 0xC400001F)) ∧
    handle_exception_sync ⟨0x16 * 2 ^ 26, 0, 0⟩ ⟨[42, 1, 2, 3, 4, 5, 6], 7, 8, 9⟩ =
      some (.ok (.Hypercall (List.getD [42, 1, 2, 3, 4, 5, 6] 0 0)
        [List.getD [42, 1, 2, 3, 4, 5, 6] 1 0, List.getD [42, 1, 2, 3, 4, 5, 6] 2 0,
         List.getD [42, 1, 2, 3, 4, 5, 6] 3 0, List.getD [42, 1, 2, 3, 4, 5, 6] 4 0,
         List.getD [42, 1, 2, 3, 4, 5, 6] 5 0, List.getD [42, 1, 2, 3, 4, 5, 6] 6 0]),
        ⟨[42, 1, 2, 3, 4, 5, 6], 7, 8, 9⟩) :=
  ⟨by decide, by decide,
    claim_C4 ⟨0x16 * 2 ^ 26, 0, 0⟩ ⟨[42, 1, 2, 3, 4, 5, 6], 7, 8, 9⟩
      (by decide) (by decide)⟩

/-- C6 (amended): the exit dispatch halts (panics) exactly for FIQ and
SError traps, for synchronous data aborts with ISV = 0 or with a DFSC
that is neither a translate nor a permission fault, and for synchronous
traps of any other unimplemented class only when the class is a stage-2
abort (so that the diagnostic's fault-address read succeeds).  (As
originally claimed — halting for every unimplemented synchronous class —
the property fails: when the class is not a stage-2 abort the `?` on
`exception_fault_addr()` inside the `panic!` arguments returns
`Err(BadState)` instead of halting; see the counterexample.) -/
theorem claim_C6 (s : SyndromeState) (ctx : TrapFrame) (k : TrapKind) :
    vmexit_handler s ctx k = none ↔
      (k = .Fiq ∨ k = .SError ∨
       (k = .Synchronous ∧
         ((exception_class_value s ≠ EC_DATA_ABORT_LOWER_EL ∧
           exception_class_value s ≠ EC_HVC64 ∧
           is_stage2_abort s = true) ∨
          (exception_class_value s = EC_DATA_ABORT_LOWER_EL ∧
            (exception_data_abort_handleable s = false ∨
             (exception_data_abort_is_translate_fault s = false ∧
              exception_data_abort_is_permission_fault s = false)))))) := by
  cases k
  case Irq =>
    simp [vmexit_handler, handle_exception_irq]
  case Fiq =>
    simp [vmexit_handler]
  case SError =>
    simp [vmexit_handler]
  case Synchronous =>
    simp only [vmexit_handler]
    by_cases h24 : exception_class_value s = EC_DATA_ABORT_LOWER_EL
    · unfold handle_exception_sync
      rw [if_pos h24]
      obtain ⟨w, hw, _⟩ := tryFrom_access_width s
      obtain ⟨v, hv, _⟩ := tryFrom_reg_width s
      unfold handle_data_abort
      rw [fault_addr_of_data_abort s h24]
      simp only [hw, hv]
      cases hh : exception_data_abort_handleable s <;>
        cases ht : exception_data_abort_is_translate_fault s <;>
        cases hp : exception_data_abort_is_permission_fault s <;>
        cases hwri : exception_data_abort_access_is_write s <;>
        simp [hh, ht, hp, hwri, h24]
    · by_cases h16 : exception_class_value s = EC_HVC64
      · unfold handle_exception_sync
        rw [if_neg h24, if_pos h16]
        cases hX : handle_psci_call ctx <;>
          simp [hX, h24, h16, EC_HVC64, EC_DATA_ABORT_LOWER_EL]
      · unfold handle_exception_sync
        rw [if_neg h24, if_neg h16]
        cases hs2 : is_stage2_abort s <;>
          simp [exception_fault_addr, hs2, h24, h16]

/-- C6 counterexample: a synchronous trap with an unimplemented class
(EC = 0, not a stage-2 abort) does not halt: the dispatch returns
`Err(BadState)` — propagated by the `?` on `exception_fault_addr()` in
the diagnostic's format arguments — although the claim says every
synchronous trap outside {DataAbortLowerEL, HVC64} is fatal. -/
theorem claim_C6_counterexample :
    exception_class_value ⟨0, 0, 0⟩ ≠ EC_DATA_ABORT_LOWER_EL ∧
    exception_class_value ⟨0, 0, 0⟩ ≠ EC_HVC64 ∧
    vmexit_handler ⟨0, 0, 0⟩ ⟨[1, 2, 3], 4, 5, 6⟩ .Synchronous =
      some (.error .BadState, ⟨[1, 2, 3], 4, 5, 6⟩) :=
  ⟨by decide, by decide, by decide⟩

/-- C10: on an HVC64 trap, the synchronous handler leaves the trap frame
completely unchanged in every outcome, and its result depends only on
`gpr[0..=6]`: two frames agreeing on those registers produce the same
exit reason. -/
theorem claim_C10 (s : SyndromeState) (ctx ctx2 tf2 : TrapFrame)
    (res : Except AxError AxVCpuExitReason)
    (hec : exception_class_value s = EC_HVC64)
    (h : handle_exception_sync s ctx = some (res, tf2)) :
    tf2 = ctx ∧
    (ctx.gpr.getD 0 0 = ctx2.gpr.getD 0 0 → ctx.gpr.getD 1 0 = ctx2.gpr.getD 1 0 →
     ctx.gpr.getD 2 0 = ctx2.gpr.getD 2 0 → ctx.gpr.getD 3 0 = ctx2.gpr.getD 3 0 →
     ctx.gpr.getD 4 0 = ctx2.gpr.getD 4 0 → ctx.gpr.getD 5 0 = ctx2.gpr.getD 5 0 →
     ctx.gpr.getD 6 0 = ctx2.gpr.getD 6 0 →
      (handle_exception_sync s ctx).map Prod.fst =
        (handle_exception_sync s ctx2).map Prod.fst) := by
  constructor
  · unfold handle_exception_sync at h
    rw [hec] at h
    norm_num [EC_HVC64, EC_DATA_ABORT_LOWER_EL] at h
    split at h <;> cases h <;> rfl
  · intro h0 h1 h2 h3 h4 h5 h6
    have hne : EC_HVC64 ≠ EC_DATA_ABORT_LOWER_EL := by decide
    have hpsci : handle_psci_call ctx = handle_psci_call ctx2 := by
      rw [psci_spec, psci_spec, h0]
    unfold handle_exception_sync
    rw [hec]
    rw [if_neg hne, if_neg hne, if_pos rfl, if_pos rfl]
    rw [hpsci, h0, h1, h2, h3, h4, h5, h6]
    cases hX : handle_psci_call ctx2 <;> rfl

/-- C10 witness: an HVC64 trap with `gpr[0] = 5` leaves the concrete
frame unchanged, and a second frame agreeing on `gpr[0..=6]` (but
differing elsewhere) produces the same `Hypercall` result. -/
theorem claim_C10_witness :
    exception_class_value ⟨0x16 * 2 ^ 26, 0, 0⟩ = EC_HVC64 ∧
    handle_exception_sync ⟨0x16 * 2 ^ 26, 0, 0⟩ ⟨[5], 0, 0, 0⟩ =
      some (.ok (.Hypercall 5 [0, 0, 0, 0, 0, 0]), ⟨[5], 0, 0, 0⟩) ∧
    (⟨[5], 0, 0, 0⟩ : TrapFrame) = ⟨[5], 0, 0, 0⟩ ∧
    (List.getD [5] 0 0 = List.getD [5, 0, 0] 0 0 →
     List.getD [5] 1 0 = List.getD [5, 0, 0] 1 0 →
     List.getD [5] 2 0 = List.getD [5, 0, 0] 2 0 →
     List.getD [5] 3 0 = List.getD [5, 0, 0] 3 0 →
     List.getD [5] 4 0 = List.getD [5, 0, 0] 4 0 →
     List.getD [5] 5 0 = List.getD [5, 0, 0] 5 0 →
     List.getD [5] 6 0 = List.getD [5, 0, 0] 6 0 →
      (handle_exception_sync ⟨0x16 * 2 ^ 26, 0, 0⟩ ⟨[5], 0, 0, 0⟩).map Prod.fst =
        (handle_exception_sync ⟨0x16 * 2 ^ 26, 0, 0⟩ ⟨[5, 0, 0], 7, 8, 9⟩).map Prod.fst) :=
  ⟨by decide, by decide,
    (claim_C10 ⟨0x16 * 2 ^ 26, 0, 0⟩ ⟨[5], 0, 0, 0⟩ ⟨[5, 0, 0], 7, 8, 9⟩ ⟨[5], 0, 0, 0⟩
      (.ok (.Hypercall 5 [0, 0, 0, 0, 0, 0])) (by decide) (by decide)).1,
    (claim_C10 ⟨0x16 * 2 ^ 26, 0, 0⟩ ⟨[5], 0, 0, 0⟩ ⟨[5, 0, 0], 7, 8, 9⟩ ⟨[5], 0, 0, 0⟩
      (.ok (.Hypercall 5 [0, 0, 0, 0, 0, 0])) (by decide) (by decide)).2⟩

end ArmVcpu
